import Mathlib

/-!
Shallow embedding of the OwlSamba dashboard client (React/TypeScript) and of
the spec's ban-decision engine, used to check the specification's claims.

The client code embedded here lives in the repository's frontend sources:
the API helpers (`handle`, `triggerScan`, `fetchBans`) in the api module,
the `SettingsForm`, `BansTable`, `BansPage`, `BanFiltersBar` and
`ActivityChart` components in the page/component files.  JavaScript strings
are `String`, JavaScript numbers that hold counts or ids are `Int`,
nullable/optional values are `Option`, and rejected promises are the
`Except.error` branch of `Except String`.
-/

namespace OwlSamba

/-- Truthiness of an optional JavaScript string: `undefined`, `null` and the
empty string are falsy, every other string is truthy. -/
def strTruthy : Option String → Bool
  | none => false
  | some s => s != ""

/-- Truthiness of an optional JavaScript number: `undefined`, `null` and `0`
are falsy. -/
def numTruthy : Option Int → Bool
  | none => false
  | some n => n != 0

/-- Field lookup in a decoded JSON object, modelled as an association list of
string fields (the client only ever reads string-valued fields). -/
def jGet (o : List (String × String)) (k : String) : Option String :=
  (o.find? (fun p => p.1 == k)).map Prod.snd

/-- An HTTP response as observed by the client through fetch: its status
code, whether its body parses as JSON (`bodyJson = some fields`) or not
(`bodyJson = none`), the raw body text, the status text, and the message of
the JSON parse error when parsing fails. -/
structure HttpResponse where
  status : Nat
  bodyJson : Option (List (String × String))
  bodyText : String
  statusText : String
  jsonErrMsg : String
deriving DecidableEq

/-- fetch semantics: `response.ok` is true exactly for statuses 200..299. -/
def responseOk (status : Nat) : Bool :=
  200 ≤ status && status < 300

/-- The value a successful `handle` call resolves to: the empty object
(returned for status 204 without reading the body) or the parsed JSON body. -/
inductive HandleValue
  | empty
  | obj (fields : List (String × String))
deriving DecidableEq

/-- Error message thrown by `handle` for a non-ok response: the body is
re-parsed as JSON and its `detail` field preferred, falling back to the
literal string "Request failed"; when the body is not JSON the body text is
used; a falsy (empty) message falls back to the status text. -/
def nonOkMessage (r : HttpResponse) : String :=
  match r.bodyJson with
  | some o =>
    let m := (jGet o "detail").getD "Request failed"
    if m = "" then r.statusText else m
  | none =>
    if r.bodyText = "" then r.statusText else r.bodyText

/-- Error message thrown by `handle`'s `parseJson` when an ok response body
fails to parse as JSON: bodies starting with a "<" report
"API response is not valid JSON", otherwise the body text is used, and a
falsy (empty) message falls back to the parse error's own message. -/
def invalidJsonMessage (r : HttpResponse) : String :=
  let m := if r.bodyText.startsWith "<" then "API response is not valid JSON" else r.bodyText
  if m = "" then r.jsonErrMsg else m

/-- The client's `handle` function over a settled HTTP response: status 204
resolves to the empty object without reading the body; a non-ok response
rejects with `nonOkMessage`; an ok response resolves to its parsed JSON body
or rejects with `invalidJsonMessage` when the body is not valid JSON. -/
def handle (r : HttpResponse) : Except String HandleValue :=
  if r.status = 204 then .ok .empty
  else if responseOk r.status then
    match r.bodyJson with
    | some o => .ok (.obj o)
    | none => .error (invalidJsonMessage r)
  else .error (nonOkMessage r)

/-- Reading `data.status` from the value `handle` resolved to: the empty
object has no fields, so the read yields `undefined` (`none`). -/
def handleStatusField : HandleValue → Option String
  | .empty => none
  | .obj o => jGet o "status"

/-- The client's `triggerScan`: handles the response of POST /api/scan and
returns 1 when `data.status === started` and 0 otherwise; a rejection of
`handle` propagates. -/
def triggerScan (r : HttpResponse) : Except String Nat :=
  match handle r with
  | .error e => .error e
  | .ok v => .ok (if handleStatusField v = some "started" then 1 else 0)

/-- The client's `BanFilters` shape (all fields optional). -/
structure BanFilters where
  min_attempts : Option Int := none
  start_date : Option String := none
  end_date : Option String := none
  sort_by : Option String := none
  sort_order : Option String := none
deriving DecidableEq

/-- The query parameters `fetchBans` puts into the request URL: each filter
field contributes a parameter exactly when its value is truthy in
JavaScript (`if (filters.field) search.set(...)`). -/
def fetchBansQuery (f : BanFilters) : List (String × String) :=
  (if numTruthy f.min_attempts then [("min_attempts", toString (f.min_attempts.getD 0))] else [])
    ++ (if strTruthy f.start_date then [("start_date", f.start_date.getD "")] else [])
    ++ (if strTruthy f.end_date then [("end_date", f.end_date.getD "")] else [])
    ++ (if strTruthy f.sort_by then [("sort_by", f.sort_by.getD "")] else [])
    ++ (if strTruthy f.sort_order then [("sort_order", f.sort_order.getD "")] else [])

/-- The `ScanStatus` value exchanged by GET /api/scan/status, as declared in
the client api module: `running` boolean, `mode` string-or-null, three
timestamp strings-or-null, and a count-or-null. -/
structure ScanStatus where
  running : Bool
  mode : Option String
  lastStarted : Option String
  lastFinished : Option String
  nextScheduled : Option String
  lastProcessed : Option Nat
deriving DecidableEq

/-- The `SettingsResponse` shape exchanged by the settings endpoints. -/
structure SettingsResponse where
  threshold : Int
  scan_wait : Int
  ban_ips : Bool
  log_name : String
  event_id : Int
  whitelist_ips : List String
  whitelist_domains : List String
  database_file : Option String := none
  hostname : Option String := none
deriving DecidableEq

/-- The `BanRecord` shape returned by GET /api/bans. -/
structure BanRecord where
  ip : String
  attempts : Int
  last_attempt : Option String := none
  workstation : Option String := none
  last_user : Option String := none
  banned : Option Int := none
  banned_time : Option String := none
  manual : Option Int := none
deriving DecidableEq

/-- One point of the stats timeline. -/
structure TimelineEntry where
  date : String
  attempts : Int
deriving DecidableEq

/-- The `StatsResponse` shape returned by GET /api/stats. -/
structure StatsResponse where
  totalBanned : Int
  recentBanned : Int
  timeline : List TimelineEntry
  host : String
  window : Int
deriving DecidableEq

/-- The `disabled` attribute of the Run-scan button in the `SettingsForm`
component (HomePage.tsx variant): `disabled={loading || running}` where
`running = scanStatus?.running` (optional chaining on a null status yields
`undefined`, which is falsy). -/
def scanButtonDisabled (loading : Bool) (scanStatus : Option ScanStatus) : Bool :=
  loading || (match scanStatus with
    | some s => s.running
    | none => false)

/-- The `SettingsPage.handleSave` step: awaits the settings-update call; on
success it stores the server's returned settings, on rejection the stored
settings are left untouched and the exception propagates to the caller.
Returns the new stored settings together with the propagated error. -/
def handleSave (settings : Option SettingsResponse) (call : Except String SettingsResponse) :
    Option SettingsResponse × Option String :=
  match call with
  | .ok updated => (some updated, none)
  | .error e => (settings, some e)

/-- The state a settings submit leaves behind: the page's stored settings
plus the form's message and error banners. -/
structure SubmitView where
  settings : Option SettingsResponse
  message : String
  error : String
deriving DecidableEq

/-- The `SettingsForm.handleSubmit` step wrapped around
`SettingsPage.handleSave`: both banners are cleared, then the save is
awaited; success shows "Settings saved", a rejection shows the error
message. -/
def handleSubmit (settings : Option SettingsResponse) (call : Except String SettingsResponse) :
    SubmitView :=
  let r := handleSave settings call
  match r.2 with
  | none => ⟨r.1, "Settings saved", ""⟩
  | some e => ⟨r.1, "", e⟩

/-- What a ban table row shows for one entry: whether the status cell reads
as blocked, and whether the unban control is rendered. -/
structure RowView where
  blocked : Bool
  showUnban : Bool
deriving DecidableEq

/-- A row of the `BansTable` component (HomePage.tsx and SettingsPage.tsx
variants): the status cell shows Blocked and the unban button is rendered
exactly when `ban.banned_time` is truthy. -/
def bansTableRow (b : BanRecord) : RowView :=
  { blocked := strTruthy b.banned_time, showUnban := strTruthy b.banned_time }

/-- A row of the `BansPage` table (the page in the unnamed app module): the
badge shows Baneada when `item.banned` is truthy, and the unban button is
rendered unconditionally for every entry. -/
def bansPageRow (b : BanRecord) : RowView :=
  { blocked := numTruthy b.banned, showUnban := true }

/-- The option values of the sort-by select in the `BansTable` component;
the empty value is the Order placeholder. -/
def bansTableSortByOptions : List String := ["", "attempts", "last_attempt"]

/-- The option values of the sort-order select in the `BansTable`
component. -/
def bansTableSortOrderOptions : List String := ["", "asc", "desc"]

/-- The onChange handler of the `BansTable` selects: the empty placeholder
clears the filter field (`e.target.value || undefined`). -/
def bansTableSelectValue (v : String) : Option String :=
  if v = "" then none else some v

/-- The option values of the sort-by select in the `BanFiltersBar`
component. -/
def banFiltersBarSortByOptions : List String := ["last_attempt", "attempts", "ip"]

/-- The option values of the sort-order select in the `BanFiltersBar`
component. -/
def banFiltersBarSortOrderOptions : List String := ["desc", "asc"]

/-- The onChange handler of the `BanFiltersBar` selects stores the selected
value directly into the filters. -/
def banFiltersBarSelectValue (v : String) : Option String := some v

/-- Every `sort_by` value a select control of the client can put into the
filters state. -/
def selectableSortBy : List (Option String) :=
  bansTableSortByOptions.map bansTableSelectValue
    ++ banFiltersBarSortByOptions.map banFiltersBarSelectValue

/-- Every `sort_order` value a select control of the client can put into the
filters state. -/
def selectableSortOrder : List (Option String) :=
  bansTableSortOrderOptions.map bansTableSelectValue
    ++ banFiltersBarSortOrderOptions.map banFiltersBarSelectValue

/-- The `sort_by` values that can actually reach a request: `fetchBans`
drops unset and falsy values before building the query string. -/
def sentSortByValues : List String :=
  (selectableSortBy.filterMap id).filter (fun s => s != "")

/-- The `sort_order` values that can actually reach a request. -/
def sentSortOrderValues : List String :=
  (selectableSortOrder.filterMap id).filter (fun s => s != "")

/-- The bar-chart divisor of `ActivityChart`:
`Math.max(...data.timeline.map(t => t.attempts), 1)`, which is 1 for an
empty timeline. -/
def chartMax (data : StatsResponse) : Int :=
  (data.timeline.map (fun t => t.attempts)).foldr max 1

/-- The width/height fraction of one chart bar, `item.attempts / max`,
with JavaScript numbers modelled as rationals. -/
def chartBarFrac (data : StatsResponse) (a : Int) : ℚ :=
  (a : ℚ) / (chartMax data : ℚ)

/-- Modelled from the spec: the engine settings the Ban Decision Engine
reads each scan.  The backend engine (Attempt Store, Ban Decision Engine,
Firewall Enforcer of spec sections 4.3 and 4.4) is not part of the checked
sources, which only contain the dashboard client and the launcher, so the
engine is modelled here from the spec's words. -/
structure EngineSettings where
  threshold : Nat
  ban_ips : Bool
deriving DecidableEq

/-- Modelled from the spec: the per-IP `BanEntry` aggregation state of the
Attempt Store, for one fixed IP. -/
structure EngineEntry where
  attempts : Nat
  last_attempt : Nat
  workstation : Option String
  last_user : Option String
  banned_time : Option Nat
  manual : Bool
deriving DecidableEq

/-- Modelled from the spec: the payload of one qualifying failed-logon
event for the fixed IP. -/
structure EventInfo where
  workstation : Option String
  user : Option String
  timestamp : Nat
deriving DecidableEq

/-- Modelled from the spec: the operations that can touch one IP's entry: a
qualifying event observed during a scan (with the whitelist verdict and the
outcome the Firewall Enforcer would report), or an unban request (with its
enforcement outcome). -/
inductive EngineOp
  | event (e : EventInfo) (now : Nat) (exempt : Bool) (enforceOk : Bool)
  | unban (enforceOk : Bool)
deriving DecidableEq

/-- Modelled from the spec: the firewall calls the engine can issue. -/
inductive FwAction
  | ban
  | unban
deriving DecidableEq

/-- Modelled from the spec: the upsert of section 4.3 step 1: create the
entry with one attempt if absent, else increment `attempts` and overwrite
`last_attempt`, `workstation` and `last_user` from the event. -/
def upsert (st : Option EngineEntry) (e : EventInfo) : EngineEntry :=
  match st with
  | none =>
    { attempts := 1, last_attempt := e.timestamp, workstation := e.workstation,
      last_user := e.user, banned_time := none, manual := false }
  | some en =>
    { en with
      attempts := en.attempts + 1
      last_attempt := e.timestamp
      workstation := e.workstation
      last_user := e.user }

/-- Modelled from the spec: one qualifying event through sections 4.2 to
4.4: an exempt event touches nothing; otherwise the entry is upserted and,
when `attempts` reaches the threshold with enforcement enabled and
`banned_time` still null, an `apply_ban` call is issued, whose success
commits `banned_time` and whose failure leaves it null. -/
def eventStep (s : EngineSettings) (st : Option EngineEntry) (e : EventInfo)
    (now : Nat) (exempt enforceOk : Bool) : Option EngineEntry × List FwAction :=
  if exempt then (st, [])
  else
    let en := upsert st e
    if s.threshold ≤ en.attempts ∧ s.ban_ips = true ∧ en.banned_time = none then
      (some (if enforceOk then { en with banned_time := some now } else en), [.ban])
    else (some en, [])

/-- Modelled from the spec: the unban path of sections 4.3 and 4.4: on a
missing entry nothing happens (NotFound); when `banned_time` is non-null an
`apply_unban` call is issued unconditionally, and only its success clears
`banned_time` (attempts and the manual flag untouched). -/
def unbanStep (st : Option EngineEntry) (enforceOk : Bool) :
    Option EngineEntry × List FwAction :=
  match st with
  | none => (none, [])
  | some en =>
    if en.banned_time = none then (some en, [])
    else (some (if enforceOk then { en with banned_time := none } else en), [.unban])

/-- Modelled from the spec: dispatch of one operation on one IP's entry. -/
def engineStep (s : EngineSettings) (st : Option EngineEntry) :
    EngineOp → Option EngineEntry × List FwAction
  | .event e now exempt enforceOk => eventStep s st e now exempt enforceOk
  | .unban enforceOk => unbanStep st enforceOk

/-- Modelled from the spec: a whole trace of operations on one IP's entry,
collecting every firewall call issued along the way. -/
def runEngine (s : EngineSettings) : Option EngineEntry → List EngineOp →
    Option EngineEntry × List FwAction
  | st, [] => (st, [])
  | st, op :: ops =>
    let r := engineStep s st op
    let rest := runEngine s r.1 ops
    (rest.1, r.2 ++ rest.2)

/-- An operation that performs a successful unban: an unban request whose
enforcement call succeeds. -/
def isSuccessfulUnban : EngineOp → Bool
  | .unban true => true
  | _ => false

/-- The number of qualifying (non-exempt) events in a trace. -/
def countQualifying : List EngineOp → Nat
  | [] => 0
  | .event _ _ exempt _ :: ops => (if exempt then 0 else 1) + countQualifying ops
  | .unban _ :: ops => countQualifying ops

/-- Whether a `handle` call resolves normally (true) or rejects (false). -/
def resolves (r : HttpResponse) : Bool :=
  match handle r with
  | .ok _ => true
  | .error _ => false

/-! Concrete sample inputs used by the witness and counterexample
theorems. -/

/-- The filters state of `BansPage` after the user picks the IP option in
the sort-by select of `BanFiltersBar`. -/
def ipSortFilters : BanFilters :=
  { min_attempts := some 0, sort_by := banFiltersBarSelectValue "ip",
    sort_order := some "desc" }

/-- An ok response whose body carries a started status. -/
def startedResponse : HttpResponse :=
  { status := 200, bodyJson := some [("status", "started")], bodyText := "",
    statusText := "OK", jsonErrMsg := "" }

/-- An ok (status 200) response whose body is not valid JSON. -/
def invalidJsonResponse : HttpResponse :=
  { status := 200, bodyJson := none, bodyText := "oops", statusText := "OK",
    jsonErrMsg := "Unexpected token" }

/-- A non-ok response whose JSON body carries a detail message. -/
def notFoundResponse : HttpResponse :=
  { status := 404, bodyJson := some [("detail", "IP not found")], bodyText := "",
    statusText := "Not Found", jsonErrMsg := "" }

/-- A scan status reporting a running manual scan. -/
def runningStatus : ScanStatus :=
  { running := true, mode := some "manual", lastStarted := some "2026-10-11T10:00:00",
    lastFinished := none, nextScheduled := none, lastProcessed := none }

/-- A ban record that was never banned (null `banned_time`, zero `banned`
flag). -/
def monitoredRecord : BanRecord :=
  { ip := "10.0.0.5", attempts := 2, last_attempt := some "2026-10-11T09:00:00",
    banned := some 0, banned_time := none }

/-- Stats whose timeline has a single three-attempt day. -/
def sampleStats : StatsResponse :=
  { totalBanned := 1, recentBanned := 1, timeline := [⟨"2026-10-11", 3⟩],
    host := "owl", window := 7 }

/-- Engine settings with threshold three and enforcement enabled. -/
def sampleEngineSettings : EngineSettings := { threshold := 3, ban_ips := true }

/-- An already-banned entry (non-null `banned_time`). -/
def bannedEntry : EngineEntry :=
  { attempts := 5, last_attempt := 10, workstation := some "WS01",
    last_user := some "guest", banned_time := some 7, manual := false }

/-- A trace of two further qualifying events around a failed unban. -/
def sampleTrace : List EngineOp :=
  [.event ⟨some "WS01", some "guest", 11⟩ 11 false true,
   .unban false,
   .event ⟨some "WS02", some "admin", 12⟩ 12 false true]

/-! Theorems settling the claims. -/

/-- Claim C2: for every response of the scan-trigger endpoint, `triggerScan`
resolves to 1 exactly when the response body's status field equals the
string started, and to 0 for every other status value; a 204 resolves to 0
and a `handle` rejection propagates unchanged. -/
theorem triggerScan_accepted_flag (r : HttpResponse) :
    (∀ o, handle r = .ok (.obj o) →
      ((triggerScan r = .ok 1 ↔ jGet o "status" = some "started")
        ∧ (triggerScan r = .ok 0 ↔ jGet o "status" ≠ some "started")))
    ∧ (r.status = 204 → triggerScan r = .ok 0)
    ∧ (∀ e, handle r = .error e → triggerScan r = .error e) := by
  refine ⟨?_, ?_, ?_⟩
  · intro o h
    by_cases hc : jGet o "status" = some "started" <;>
      simp [triggerScan, h, handleStatusField, hc]
  · intro h204
    simp [triggerScan, handle, h204, handleStatusField]
  · intro e h
    simp [triggerScan, h]

/-- Witness for C2: a response whose body carries status started makes
`triggerScan` return 1. -/
theorem triggerScan_accepted_flag_witness : triggerScan startedResponse = Except.ok 1 :=
  ((triggerScan_accepted_flag startedResponse).1 [("status", "started")] rfl).1.mpr rfl

/-- Claim C3: whenever the scan status reports a running scan, the Run-scan
button of the settings form is rendered disabled, so this control cannot
issue a manual scan trigger while a scan is reported running. -/
theorem runScan_button_disabled_when_running (loading : Bool) (s : ScanStatus)
    (h : s.running = true) : scanButtonDisabled loading (some s) = true := by
  simp [scanButtonDisabled, h]

/-- Witness for C3: with a running manual scan reported, the button is
disabled. -/
theorem runScan_button_disabled_when_running_witness :
    runningStatus.running = true ∧ scanButtonDisabled false (some runningStatus) = true :=
  ⟨by decide, runScan_button_disabled_when_running false runningStatus (by decide)⟩

/-- Claim C4: a failing settings update leaves the page's stored settings
unchanged and shows the error message; only a successful call replaces the
stored settings with the server's returned settings. -/
theorem settings_update_atomic (st : Option SettingsResponse) (u : SettingsResponse)
    (e : String) :
    (handleSubmit st (Except.error e)).settings = st
    ∧ (handleSubmit st (Except.error e)).error = e
    ∧ (handleSubmit st (Except.error e)).message = ""
    ∧ (handleSubmit st (Except.ok u)).settings = some u
    ∧ (handleSubmit st (Except.ok u)).message = "Settings saved" :=
  ⟨rfl, rfl, rfl, rfl, rfl⟩

/-- Claim C7: `fetchBans` puts a query parameter for a filter field into the
request exactly when that field's value is truthy; in particular a
min_attempts of zero builds the same query as an absent min_attempts, and
unset date and sort fields contribute no parameters. -/
theorem fetchBansQuery_truthy_params (f : BanFilters) :
    ((fetchBansQuery f).any (fun p => p.1 == "min_attempts") = numTruthy f.min_attempts)
    ∧ ((fetchBansQuery f).any (fun p => p.1 == "start_date") = strTruthy f.start_date)
    ∧ ((fetchBansQuery f).any (fun p => p.1 == "end_date") = strTruthy f.end_date)
    ∧ ((fetchBansQuery f).any (fun p => p.1 == "sort_by") = strTruthy f.sort_by)
    ∧ ((fetchBansQuery f).any (fun p => p.1 == "sort_order") = strTruthy f.sort_order)
    ∧ fetchBansQuery { f with min_attempts := some 0 }
      = fetchBansQuery { f with min_attempts := none } := by
  have hzero : fetchBansQuery { f with min_attempts := some 0 }
      = fetchBansQuery { f with min_attempts := none } := by
    simp [fetchBansQuery, numTruthy]
  refine ⟨?_, ?_, ?_, ?_, ?_, hzero⟩
  all_goals
    by_cases h1 : numTruthy f.min_attempts <;>
      by_cases h2 : strTruthy f.start_date <;>
        by_cases h3 : strTruthy f.end_date <;>
          by_cases h4 : strTruthy f.sort_by <;>
            by_cases h5 : strTruthy f.sort_order <;>
              simp [fetchBansQuery, h1, h2, h3, h4, h5]

/-- Claim C8: a `ScanStatus` value is exactly an assignment of its six declared
fields: a boolean running flag together with a nullable mode string, three
nullable timestamp strings and a nullable processed count; every such
assignment is realized by one and only one `ScanStatus` value. -/
theorem scanStatus_field_shape (r : Bool) (m ls lf ns : Option String) (lp : Option Nat) :
    ∃! s : ScanStatus, s.running = r ∧ s.mode = m ∧ s.lastStarted = ls
      ∧ s.lastFinished = lf ∧ s.nextScheduled = ns ∧ s.lastProcessed = lp := by
  refine ⟨⟨r, m, ls, lf, ns, lp⟩, ⟨rfl, rfl, rfl, rfl, rfl, rfl⟩, ?_⟩
  rintro ⟨r2, m2, ls2, lf2, ns2, lp2⟩ ⟨h1, h2, h3, h4, h5, h6⟩
  subst h1 h2 h3 h4 h5 h6
  rfl

/-- Counterexample to C5 as stated: the `BansPage` table renders the unban
control for a record whose `banned_time` is null, so the unban control is
not rendered exactly when `banned_time` is non-null. -/
theorem bansPage_unban_control_cex :
    ¬ ((bansPageRow monitoredRecord).showUnban = true ↔
      monitoredRecord.banned_time ≠ none) := by
  decide

/-- Claim C5, amended: in the `BansTable` component a record with a well-formed
(non-empty) timestamp is displayed as blocked and gets the unban control
exactly when `banned_time` is non-null, while the `BansPage` table renders
the unban control for every entry and drives its badge off the `banned`
field instead. -/
theorem bans_render_controls (b : BanRecord) (h : b.banned_time ≠ some "") :
    ((bansTableRow b).blocked = true ↔ b.banned_time ≠ none)
    ∧ ((bansTableRow b).showUnban = true ↔ b.banned_time ≠ none)
    ∧ (bansPageRow b).showUnban = true
    ∧ (bansPageRow b).blocked = numTruthy b.banned := by
  cases hb : b.banned_time with
  | none => simp [bansTableRow, bansPageRow, strTruthy, hb]
  | some s =>
    have hs : s ≠ "" := fun he => h (he ▸ hb)
    simp [bansTableRow, bansPageRow, strTruthy, hb, hs]

/-- Witness for C5 amended: a never-banned record is shown as allowed with
no unban control in `BansTable`, yet `BansPage` still shows the control. -/
theorem bans_render_controls_witness :
    monitoredRecord.banned_time ≠ some ""
    ∧ (((bansTableRow monitoredRecord).blocked = true ↔ monitoredRecord.banned_time ≠ none)
      ∧ ((bansTableRow monitoredRecord).showUnban = true ↔ monitoredRecord.banned_time ≠ none)
      ∧ (bansPageRow monitoredRecord).showUnban = true
      ∧ (bansPageRow monitoredRecord).blocked = numTruthy monitoredRecord.banned) :=
  ⟨by decide, bans_render_controls monitoredRecord (by decide)⟩

/-- Counterexample to C6 as stated: the `BanFiltersBar` sort-by select
offers the value ip, which is stored in the filters and reaches the request
query, yet is not in the set of attempts and last_attempt. -/
theorem sortBy_ip_reaches_request_cex :
    "ip" ∈ banFiltersBarSortByOptions
    ∧ ("sort_by", "ip") ∈ fetchBansQuery ipSortFilters
    ∧ ¬ ("ip" = "attempts" ∨ "ip" = "last_attempt") := by
  decide

/-- Claim C6, amended: every sort_by value a select control can send with a
request lies in the set of attempts, last_attempt and ip (the extra ip
option coming from `BanFiltersBar`), and every sort_order value sent lies
in the set of asc and desc. -/
theorem sent_sort_values_range :
    sentSortByValues.all (fun v => ["attempts", "last_attempt", "ip"].contains v) = true
    ∧ sentSortOrderValues.all (fun v => ["asc", "desc"].contains v) = true := by
  decide

/-- Counterexample to C9 as stated: an ok (status 200) response whose body
is not valid JSON makes `handle` reject, so `handle` does not resolve
exactly when the status is 204 or ok. -/
theorem handle_resolves_iff_ok_cex :
    ¬ ((resolves invalidJsonResponse = true) ↔
      (invalidJsonResponse.status = 204
        ∨ responseOk invalidJsonResponse.status = true)) := by
  decide

/-- Claim C9, amended: `handle` resolves normally exactly when the status is 204
(to the empty object, without reading the body) or the response is ok with
a body that parses as JSON; every non-ok response rejects with the
`nonOkMessage` error, which prefers the JSON body's non-empty detail
field. -/
theorem handle_resolution (r : HttpResponse) :
    (resolves r = true ↔
      (r.status = 204 ∨ (responseOk r.status = true ∧ r.bodyJson.isSome = true)))
    ∧ (r.status = 204 → handle r = .ok .empty)
    ∧ (responseOk r.status = false → r.status ≠ 204 → handle r = .error (nonOkMessage r))
    ∧ (∀ o d, responseOk r.status = false → r.status ≠ 204 → r.bodyJson = some o →
        jGet o "detail" = some d → d ≠ "" → handle r = .error d) := by
  refine ⟨?_, ?_, ?_, ?_⟩
  · by_cases h204 : r.status = 204
    · simp [resolves, handle, h204]
    · by_cases hok : responseOk r.status
      · cases hj : r.bodyJson with
        | none => simp [resolves, handle, h204, hok, hj]
        | some o => simp [resolves, handle, h204, hok, hj]
      · simp [resolves, handle, h204, hok]
  · intro h204
    simp [handle, h204]
  · intro hok h204
    simp [handle, h204, hok]
  · intro o d hok h204 hj hd hne
    simp [handle, h204, hok, nonOkMessage, hj, hd, hne]

/-- Witness for C9 amended: a 404 whose JSON body carries a detail field
rejects with exactly that detail message. -/
theorem handle_resolution_witness : handle notFoundResponse = Except.error "IP not found" :=
  (handle_resolution notFoundResponse).2.2.2 [("detail", "IP not found")] "IP not found"
    (by decide) (by decide) rfl rfl (by decide)

/-- The chart divisor is bounded below by its seed value 1. -/
theorem one_le_foldr_max (l : List Int) : 1 ≤ l.foldr max 1 := by
  induction l with
  | nil => exact le_refl 1
  | cons a t ih => exact le_trans ih (le_max_right a (t.foldr max 1))

/-- Every list element is bounded by the folded maximum. -/
theorem mem_le_foldr_max (l : List Int) (a : Int) (h : a ∈ l) : a ≤ l.foldr max 1 := by
  induction l with
  | nil => cases h
  | cons b t ih =>
    rcases List.mem_cons.mp h with rfl | h2
    · exact le_max_left a (t.foldr max 1)
    · exact le_trans (ih h2) (le_max_right b (t.foldr max 1))

/-- Claim C10: the `ActivityChart` divisor is at least 1 (also on an empty
timeline), so the bar computation never divides by zero, and every timeline
entry with non-negative attempts yields a width fraction between 0 and 1,
hence a percentage of at most 100. -/
theorem activityChart_bar_bounds (data : StatsResponse) :
    1 ≤ chartMax data
    ∧ ∀ t, t ∈ data.timeline → 0 ≤ t.attempts →
      (0 ≤ chartBarFrac data t.attempts ∧ chartBarFrac data t.attempts ≤ 1
        ∧ chartBarFrac data t.attempts * 100 ≤ 100) := by
  have hmax : 1 ≤ chartMax data := one_le_foldr_max _
  refine ⟨hmax, ?_⟩
  intro t ht h0
  have hpos : (0 : ℚ) < (chartMax data : ℚ) := by
    exact_mod_cast lt_of_lt_of_le Int.zero_lt_one hmax
  have hle : t.attempts ≤ chartMax data :=
    mem_le_foldr_max _ _ (List.mem_map_of_mem (fun u => u.attempts) ht)
  have hfrac0 : 0 ≤ chartBarFrac data t.attempts :=
    div_nonneg (by exact_mod_cast h0) (le_of_lt hpos)
  have hfrac1 : chartBarFrac data t.attempts ≤ 1 := by
    rw [chartBarFrac, div_le_one hpos]
    exact_mod_cast hle
  refine ⟨hfrac0, hfrac1, ?_⟩
  calc chartBarFrac data t.attempts * 100 ≤ 1 * 100 :=
        mul_le_mul_of_nonneg_right hfrac1 (by norm_num)
    _ = 100 := by norm_num

/-- Witness for C10: the single three-attempt day of the sample stats fills
its bar completely and stays within bounds. -/
theorem activityChart_bar_bounds_witness :
    0 ≤ chartBarFrac sampleStats 3 ∧ chartBarFrac sampleStats 3 ≤ 1
      ∧ chartBarFrac sampleStats 3 * 100 ≤ 100 :=
  (activityChart_bar_bounds sampleStats).2 ⟨"2026-10-11", 3⟩ (by decide) (by decide)

/-- Claim C1, engine modelled from the spec: once an entry's `banned_time` is
non-null, a trace that contains no successful unban issues no further
`apply_ban` call for that IP, while its attempts still accumulate, one per
qualifying (non-exempt) event, and `banned_time` stays non-null. -/
theorem cooldown_no_reban (s : EngineSettings) (en : EngineEntry) (ops : List EngineOp)
    (hban : en.banned_time.isSome = true)
    (hnub : ∀ op ∈ ops, isSuccessfulUnban op = false) :
    FwAction.ban ∉ (runEngine s (some en) ops).2
    ∧ ∃ fin2 : EngineEntry, (runEngine s (some en) ops).1 = some fin2
      ∧ fin2.banned_time.isSome = true
      ∧ fin2.attempts = en.attempts + countQualifying ops := by
  revert hban hnub
  induction ops generalizing en with
  | nil =>
    intro hban _
    exact ⟨by simp [runEngine], en, rfl, hban, by simp [countQualifying, runEngine]⟩
  | cons op ops ih =>
    intro hban hnub
    have hop : isSuccessfulUnban op = false := hnub op (List.mem_cons_self op ops)
    have hops : ∀ op2 ∈ ops, isSuccessfulUnban op2 = false :=
      fun op2 h2 => hnub op2 (List.mem_cons_of_mem op h2)
    cases op with
    | event e now exempt enforceOk =>
      cases exempt with
      | true =>
        obtain ⟨hnb, fin2, hfin, hfban, hatt⟩ := ih en hban hops
        have hrun : runEngine s (some en) (EngineOp.event e now true enforceOk :: ops)
            = ((runEngine s (some en) ops).1, (runEngine s (some en) ops).2) := by
          simp [runEngine, engineStep, eventStep]
        rw [hrun]
        exact ⟨hnb, fin2, hfin, hfban, by simpa [countQualifying] using hatt⟩
      | false =>
        have hbt : (upsert (some en) e).banned_time = en.banned_time := rfl
        have hcond : ¬ (s.threshold ≤ (upsert (some en) e).attempts ∧ s.ban_ips = true
            ∧ (upsert (some en) e).banned_time = none) := by
          rintro ⟨-, -, hnone⟩
          rw [hbt] at hnone
          rw [hnone] at hban
          simp at hban
        have hstep : engineStep s (some en) (EngineOp.event e now false enforceOk)
            = (some (upsert (some en) e), []) := by
          simp [engineStep, eventStep, hcond]
        obtain ⟨hnb, fin2, hfin, hfban, hatt⟩ :=
          ih (upsert (some en) e) (by rw [hbt]; exact hban) hops
        have hrun : runEngine s (some en) (EngineOp.event e now false enforceOk :: ops)
            = ((runEngine s (some (upsert (some en) e)) ops).1,
              (runEngine s (some (upsert (some en) e)) ops).2) := by
          simp [runEngine, hstep]
        rw [hrun]
        refine ⟨hnb, fin2, hfin, hfban, ?_⟩
        have hup : (upsert (some en) e).attempts = en.attempts + 1 := rfl
        rw [hup] at hatt
        simp only [countQualifying, if_neg Bool.false_ne_true]
        omega
    | unban enforceOk =>
      cases enforceOk with
      | true => simp [isSuccessfulUnban] at hop
      | false =>
        have hne : ¬ (en.banned_time = none) := by
          intro h2
          rw [h2] at hban
          simp at hban
        have hstep : engineStep s (some en) (EngineOp.unban false)
            = (some en, [FwAction.unban]) := by
          simp [engineStep, unbanStep, hne]
        obtain ⟨hnb, fin2, hfin, hfban, hatt⟩ := ih en hban hops
        have hrun : runEngine s (some en) (EngineOp.unban false :: ops)
            = ((runEngine s (some en) ops).1,
              FwAction.unban :: (runEngine s (some en) ops).2) := by
          simp [runEngine, hstep]
        rw [hrun]
        refine ⟨?_, fin2, hfin, hfban, by simpa [countQualifying] using hatt⟩
        intro hmem
        rcases List.mem_cons.mp hmem with h2 | h2
        · exact FwAction.noConfusion h2
        · exact hnb h2

/-- Witness for C1: an already-banned entry run through two further
qualifying events and one failed unban issues no `apply_ban` call while its
attempts grow by two. -/
theorem cooldown_no_reban_witness :
    FwAction.ban ∉ (runEngine sampleEngineSettings (some bannedEntry) sampleTrace).2
    ∧ ∃ fin2 : EngineEntry,
      (runEngine sampleEngineSettings (some bannedEntry) sampleTrace).1 = some fin2
      ∧ fin2.banned_time.isSome = true
      ∧ fin2.attempts = bannedEntry.attempts + countQualifying sampleTrace :=
  cooldown_no_reban sampleEngineSettings bannedEntry sampleTrace (by decide) (by decide)

end OwlSamba
